import Mathlib

/-
Verification of the prompower-feed XML generator (src/generate_feed.py).

We shallowly embed the pure data-transformation core of the script:
* JSON-ish scalar record values with Python truthiness and str()/int()/float()
  conversions (string-to-number conversion is modelled on the decimal
  numeral grammar: optional sign, digits, optional fractional part, with
  surrounding whitespace stripped; this covers every value the claims and
  the feed data use),
* the per-product mapping `generate_xml_feed` performs (article check,
  price filter, offer construction, stock parsing), where a Python
  exception that the script does not catch is an `Except.error`,
* the category element construction,
* a deterministic serializer for the resulting element tree (the real
  script pretty-prints via minidom; the serializer is a fixed deterministic
  function of the tree, which is all the determinism claim needs),
* the `__main__` driver with its exit behaviour, with fetch results as
  parameters (the categories endpoint is modelled on JSON-list responses,
  which is the shape the script expects).
-/

namespace PrompowerFeed

/-- A scalar value as it appears in a decoded JSON product or category
record: a string, an integer, or JSON null (Python `None`). -/
inductive Val where
  | str (s : String)
  | int (n : Int)
  | null
deriving DecidableEq, Repr

/-- Python truthiness of a record value: nonempty string, nonzero number;
`None` is falsy. -/
def truthy : Val → Bool
  | .str s => s ≠ ""
  | .int n => n ≠ 0
  | .null => false

/-- Python truthiness of `dict.get(k)`: a missing key yields `None`, which
is falsy. -/
def truthyOpt : Option Val → Bool
  | some v => truthy v
  | none => false

/-- Python `str()` of a record value (`str(None) = "None"`). -/
def pyStr : Val → String
  | .str s => s
  | .int n => toString n
  | .null => "None"

/-- A decoded JSON object, as a key/value association list (Python dict
keys are unique; lookup takes the first match). -/
abbrev Record := List (String × Val)

/-- Python `d.get(k)`: `some` value when the key is present, `none` when
absent. -/
def rget (r : Record) (k : String) : Option Val :=
  (r.find? (fun kv => kv.1 = k)).map (·.2)

/-- Python `d.get(k, default)`. -/
def rgetD (r : Record) (k : String) (d : Val) : Val :=
  (rget r k).getD d

/-- Numeric value of a digit list (most significant first). -/
def digitsVal (l : List Char) : Nat :=
  l.foldl (fun a c => a * 10 + (c.toNat - 48)) 0

/-- Check that every character is a decimal digit. -/
def allDigits (l : List Char) : Bool :=
  l.all (·.isDigit)

/-- Strip leading and trailing whitespace, as Python number conversion
does before parsing. -/
def trimChars (l : List Char) : List Char :=
  ((l.dropWhile Char.isWhitespace).reverse.dropWhile Char.isWhitespace).reverse

/-- Python `int(s)` for a string: optional sign followed by a nonempty
digit run (whitespace already stripped); anything else raises ValueError,
modelled as `none`. -/
def parseIntChars : List Char → Option Int
  | [] => none
  | '+' :: rest =>
      if !rest.isEmpty && allDigits rest then some (digitsVal rest) else none
  | '-' :: rest =>
      if !rest.isEmpty && allDigits rest then some (-(digitsVal rest : Int)) else none
  | l => if allDigits l then some (digitsVal l) else none

/-- Python `int(v)` on a record value: strings go through the numeral
grammar, integers pass through, `None` raises (TypeError). An error value
is an exception the script does not catch. -/
def pyInt : Val → Except Unit Int
  | .str s =>
      match parseIntChars (trimChars s.toList) with
      | some n => .ok n
      | none => .error ()
  | .int n => .ok n
  | .null => .error ()

/-- Unsigned decimal numeral with an optional fractional part, as a
rational. -/
def parseUnsignedDecChars (l : List Char) : Option ℚ :=
  let ip := l.takeWhile (fun c => c ≠ '.')
  match l.drop ip.length with
  | [] => if !ip.isEmpty && allDigits ip then some ((digitsVal ip : ℚ)) else none
  | '.' :: frac =>
      if (!ip.isEmpty || !frac.isEmpty) && allDigits ip && allDigits frac then
        some ((digitsVal ip : ℚ) + (digitsVal frac : ℚ) / (10 : ℚ) ^ frac.length)
      else none
  | _ => none

/-- Python `float(s)` for a string on the decimal numeral grammar:
optional sign, digits, optional fractional part. -/
def parseFloatStr (s : String) : Option ℚ :=
  match trimChars s.toList with
  | '+' :: rest => parseUnsignedDecChars rest
  | '-' :: rest => (parseUnsignedDecChars rest).map (fun q => -q)
  | l => parseUnsignedDecChars l

/-- Python `float(v)` on a record value: failure (`ValueError` on a bad
string, `TypeError` on `None`) is an exception; the script catches this one
at the price filter. -/
def pyFloat : Val → Except Unit ℚ
  | .str s =>
      match parseFloatStr s with
      | some q => .ok q
      | none => .error ()
  | .int n => .ok (n : ℚ)
  | .null => .error ()

/-- An XML element as ElementTree builds it: tag, attributes in creation
order, optional text, child elements in creation order. -/
inductive Xml where
  | elem (tag : String) (attrs : List (String × String)) (text : Option String)
      (children : List Xml)

/-- Tag of an element. -/
def tagOf : Xml → String
  | .elem t _ _ _ => t

/-- Attribute list of an element. -/
def attrsOf : Xml → List (String × String)
  | .elem _ a _ _ => a

/-- Text of an element. -/
def textOf : Xml → Option String
  | .elem _ _ tx _ => tx

/-- Children of an element. -/
def childrenOf : Xml → List Xml
  | .elem _ _ _ cs => cs

/-- Leaf element with only text, as `ET.SubElement(parent, tag).text = s`. -/
def te (tag s : String) : Xml := .elem tag [] (some s) []

/-- Lookup in a string-to-string association list (the images dictionary
and attribute lists). -/
def lookupStr (m : List (String × String)) (k : String) : Option String :=
  (m.find? (fun kv => kv.1 = k)).map (·.2)

/-- Escaping of character data in serialized XML text. -/
def escText (s : String) : String :=
  ((s.replace "&" "&amp;").replace "<" "&lt;").replace ">" "&gt;"

/-- Escaping of attribute values in serialized XML. -/
def escAttr (s : String) : String :=
  (escText s).replace "\"" "&quot;"

/-- Serialize an attribute list. -/
def renderAttrs : List (String × String) → String
  | [] => ""
  | (k, v) :: rest => " " ++ k ++ "=\"" ++ escAttr v ++ "\"" ++ renderAttrs rest

mutual
/-- Deterministic serializer for the element tree (stands for
`ET.tostring` followed by minidom pretty-printing, which is a fixed
function of the tree). -/
def render : Xml → String
  | .elem t a tx cs =>
      "<" ++ t ++ renderAttrs a ++ ">"
      ++ (match tx with | some s => escText s | none => "")
      ++ renderChildren cs
      ++ "</" ++ t ++ ">"

/-- Serialize a child list in order. -/
def renderChildren : List Xml → String
  | [] => ""
  | c :: cs => render c ++ renderChildren cs
end

/-- Category elements (lines 149-154): for each category, take
`str(category.get("id"))` — note `str(None) = "None"` — and the raw title;
emit `<category id=...>` when the id string and the title are both truthy. -/
def catElems (cs : List Record) : List Xml :=
  cs.filterMap fun c =>
    let cid := pyStr ((rget c "id").getD .null)
    match rget c "title" with
    | some tv =>
        if cid ≠ "" ∧ truthy tv then
          some (.elem "category" [("id", cid)] (some (pyStr tv)) [])
        else none
    | none => none

/-- Price value used by the filter (lines 170-173): `float(price)` with
parse failures caught and replaced by 0. -/
def priceValue (p : Record) : ℚ :=
  match pyFloat (rgetD p "price" (.int 0)) with
  | .ok q => q
  | .error _ => 0

/-- Offer id: `str()` of the article value (line 180). -/
def offerIdOf (p : Record) : String :=
  pyStr ((rget p "article").getD .null)

/-- Brand/vendor value (lines 195-202): `"Unimat"` exactly when
`source_brand` equals the string `"Unimat"`, else `"Prompower"`. -/
def brandName (p : Record) : String :=
  if rgetD p "source_brand" (.str "Prompower") = Val.str "Unimat" then "Unimat"
  else "Prompower"

/-- Offer name text (line 187): the raw title when present, else the
f-string default. -/
def nameText (p : Record) (offer_id : String) : String :=
  match rget p "title" with
  | some v => pyStr v
  | none => "Продукт " ++ offer_id

/-- API fallback picture (lines 217-220):
`product.get("picture", product.get("image"))`, emitted when truthy. -/
def apiPictureElems (p : Record) : List Xml :=
  match (match rget p "picture" with
         | some v => some v
         | none => rget p "image") with
  | some v => if truthy v then [Xml.elem "picture" [] (some (pyStr v)) []] else []
  | none => []

/-- Picture resolution (lines 211-220): the external map value when it is
truthy (a nonempty string), else the API fallback. -/
def pictureElems (images : List (String × String)) (offer_id : String)
    (p : Record) : List Xml :=
  match lookupStr images offer_id with
  | some ext => if ext ≠ "" then [Xml.elem "picture" [] (some ext) []]
                else apiPictureElems p
  | none => apiPictureElems p

/-- Description element (lines 224-226), emitted when truthy. -/
def descElems (p : Record) : List Xml :=
  match rget p "description" with
  | some v => if truthy v then [te "description" (pyStr v)] else []
  | none => []

/-- Named param element. -/
def paramElem (nm u s : String) : Xml :=
  .elem "param" [("name", nm), ("unit", u)] (some s) []

/-- Weight param (lines 234-236), emitted when the weight value is
truthy. -/
def weightElems (p : Record) : List Xml :=
  match rget p "weight" with
  | some v => if truthy v then [paramElem "Вес" "кг" (pyStr v)] else []
  | none => []

/-- Dimensions param (lines 239-245): emitted when height, width and depth
are all truthy, with text `f"{height}x{width}x{depth}"`. -/
def dimsElems (p : Record) : List Xml :=
  match rget p "height", rget p "width", rget p "depth" with
  | some h, some w, some d =>
      if truthy h && truthy w && truthy d then
        [paramElem "Габариты" "мм" (pyStr h ++ "x" ++ pyStr w ++ "x" ++ pyStr d)]
      else []
  | _, _, _ => []

/-- The offer element built for a product that passed the article and
price checks, with `quantity` the already-converted stock count
(lines 181-245, in creation order). -/
def mkOffer (images : List (String × String)) (p : Record) (quantity : Int) : Xml :=
  let offer_id := offerIdOf p
  Xml.elem "offer" [("id", offer_id)] none (
    [ te "vendorCode" offer_id,
      te "name" (nameText p offer_id),
      te "categoryId" (pyStr (rgetD p "categoryId" (.str "10"))),
      te "price" (pyStr (rgetD p "price" (.int 0))),
      te "vat" "7",
      te "step-quantity" "1",
      te "preorder" "1",
      te "brand" (brandName p),
      te "vendor" (brandName p) ]
    ++ pictureElems images offer_id p
    ++ descElems p
    ++ [Xml.elem "warehouse"
          [("name", "Главный склад Prompower и Unimat"), ("unit", "шт")]
          (some (toString quantity)) []]
    ++ weightElems p
    ++ dimsElems p)

/-- Per-product step of the offers loop (lines 162-245): skip on falsy
article; skip on price ≤ 0 (with parse failures folded to 0); then build
the offer, where `int(product.get("instock", 0))` can raise an uncaught
exception (`Except.error`). -/
def processProduct (images : List (String × String)) (p : Record) :
    Except Unit (Option Xml) :=
  if truthyOpt (rget p "article") then
    if priceValue p ≤ 0 then .ok none
    else
      match pyInt (rgetD p "instock" (.int 0)) with
      | .ok q => .ok (some (mkOffer images p q))
      | .error e => .error e
  else .ok none

/-- The offers loop over the product list; an uncaught exception aborts
the whole generation. -/
def buildOffers (images : List (String × String)) :
    List Record → Except Unit (List Xml)
  | [] => .ok []
  | p :: ps => do
      let o ← processProduct images p
      let rest ← buildOffers images ps
      return (o.toList ++ rest)

/-- Decoded categories payload: the script guards the category loop with
`isinstance(categories_data, list)`. -/
inductive CatData where
  | lst (cs : List Record)
  | nonList

/-- Children of the `categories` element (lines 146-154). -/
def categoriesChildren : CatData → List Xml
  | .lst cs => catElems cs
  | .nonList => []

/-- The `shop` element (lines 138-245). -/
def buildShop (products : List Record) (cats : CatData)
    (images : List (String × String)) : Except Unit Xml := do
  let offerList ← buildOffers images products
  return Xml.elem "shop" [] none
    [ te "name" "Prompower",
      te "company" "Мотрум",
      te "url" "https://brilka.github.io/prompower-feed/",
      Xml.elem "categories" [] none (categoriesChildren cats),
      Xml.elem "offers" [] none offerList ]

/-- The whole element tree of `generate_xml_feed`, with the
`datetime.now()` timestamp as a parameter; an `Except.error` is an
uncaught exception that aborts before anything is written. -/
def generate_xml_feed (products : List Record) (cats : CatData)
    (images : List (String × String)) (date : String) : Except Unit Xml := do
  let shop ← buildShop products cats images
  return Xml.elem "yml_catalog" [("date", date)] none [shop]

/-- The bytes written to feed.xml. -/
def feedOutput (products : List Record) (cats : CatData)
    (images : List (String × String)) (date : String) : Except Unit String :=
  (generate_xml_feed products cats images date).map render

/-- Observable process termination: a Python `exit(n)` or a clean finish
(`code`), or termination by an uncaught exception traceback. -/
inductive Outcome where
  | code (n : Nat)
  | exception
deriving DecidableEq, Repr

/-- The `__main__` driver (lines 262-279): exit(1) on a falsy categories
result, exit(1) on an empty aggregated product list, otherwise generate
the feed — a clean finish is exit code 0, and an exception escaping
`generate_xml_feed` ends the process with a traceback. -/
def runMain (categoriesResp : Option (List Record)) (all_products : List Record)
    (images : List (String × String)) (date : String) : Outcome :=
  match categoriesResp with
  | none => .code 1
  | some cs =>
    if cs.isEmpty then .code 1
    else if all_products.isEmpty then .code 1
    else
      match generate_xml_feed all_products (.lst cs) images date with
      | .ok _ => .code 0
      | .error _ => .exception

/-- Texts of the children with a given tag, in order. -/
def tagTexts (tag : String) (cs : List Xml) : List (Option String) :=
  (cs.filter fun c => tagOf c == tag).map textOf

/-- Texts of the `param` children with a given `name` attribute, in
order. -/
def paramTexts (nm : String) (cs : List Xml) : List (Option String) :=
  (cs.filter fun c => tagOf c == "param" && lookupStr (attrsOf c) "name" == some nm).map textOf

/-- Observation of a processed product: for the emitted offer (when one
is emitted), the texts of its children with the given tag. -/
def offerView (images : List (String × String)) (p : Record) (tag : String) :
    Except Unit (Option (List (Option String))) :=
  (processProduct images p).map (fun o => o.map (fun x => tagTexts tag (childrenOf x)))

theorem tagTexts_append (tag : String) (l1 l2 : List Xml) :
    tagTexts tag (l1 ++ l2) = tagTexts tag l1 ++ tagTexts tag l2 := by
  simp [tagTexts]

theorem tagTexts_nil_of {tag : String} {cs : List Xml}
    (h : ∀ x ∈ cs, tagOf x ≠ tag) : tagTexts tag cs = [] := by
  unfold tagTexts
  rw [List.filter_eq_nil_iff.mpr]
  · rfl
  · intro a ha
    simp [h a ha]

theorem tagTexts_all_of {tag : String} {cs : List Xml}
    (h : ∀ x ∈ cs, tagOf x = tag) : tagTexts tag cs = cs.map textOf := by
  unfold tagTexts
  rw [List.filter_eq_self.mpr]
  intro a ha
  simp [h a ha]

theorem paramTexts_append (nm : String) (l1 l2 : List Xml) :
    paramTexts nm (l1 ++ l2) = paramTexts nm l1 ++ paramTexts nm l2 := by
  simp [paramTexts]

theorem paramTexts_nil_of {nm : String} {cs : List Xml}
    (h : ∀ x ∈ cs, tagOf x ≠ "param" ∨ lookupStr (attrsOf x) "name" ≠ some nm) :
    paramTexts nm cs = [] := by
  unfold paramTexts
  rw [List.filter_eq_nil_iff.mpr]
  · rfl
  · intro a ha
    rcases h a ha with h1 | h1 <;> simp [h1]

theorem tagOf_mem_apiPictureElems {p : Record} {x : Xml}
    (hx : x ∈ apiPictureElems p) : tagOf x = "picture" := by
  unfold apiPictureElems at hx
  split at hx
  · split at hx
    · simp at hx
      subst hx
      rfl
    · simp at hx
  · simp at hx

theorem tagOf_mem_pictureElems {images : List (String × String)} {oid : String}
    {p : Record} {x : Xml} (hx : x ∈ pictureElems images oid p) :
    tagOf x = "picture" := by
  unfold pictureElems at hx
  split at hx
  · split at hx
    · simp at hx
      subst hx
      rfl
    · exact tagOf_mem_apiPictureElems hx
  · exact tagOf_mem_apiPictureElems hx

theorem tagOf_mem_descElems {p : Record} {x : Xml}
    (hx : x ∈ descElems p) : tagOf x = "description" := by
  unfold descElems at hx
  split at hx
  · split at hx
    · simp at hx
      subst hx
      rfl
    · simp at hx
  · simp at hx

theorem tagOf_mem_weightElems {p : Record} {x : Xml}
    (hx : x ∈ weightElems p) : tagOf x = "param" := by
  unfold weightElems at hx
  split at hx
  · split at hx
    · simp at hx
      subst hx
      rfl
    · simp at hx
  · simp at hx

theorem nameAttr_mem_weightElems {p : Record} {x : Xml}
    (hx : x ∈ weightElems p) : lookupStr (attrsOf x) "name" = some "Вес" := by
  unfold weightElems at hx
  split at hx
  · split at hx
    · simp at hx
      subst hx
      rfl
    · simp at hx
  · simp at hx

theorem tagOf_mem_dimsElems {p : Record} {x : Xml}
    (hx : x ∈ dimsElems p) : tagOf x = "param" := by
  unfold dimsElems at hx
  split at hx
  · split at hx
    · simp at hx
      subst hx
      rfl
    · simp at hx
  · simp at hx

theorem childrenOf_mkOffer (images : List (String × String)) (p : Record)
    (q : Int) :
    childrenOf (mkOffer images p q) =
      [ te "vendorCode" (offerIdOf p),
        te "name" (nameText p (offerIdOf p)),
        te "categoryId" (pyStr (rgetD p "categoryId" (.str "10"))),
        te "price" (pyStr (rgetD p "price" (.int 0))),
        te "vat" "7",
        te "step-quantity" "1",
        te "preorder" "1",
        te "brand" (brandName p),
        te "vendor" (brandName p) ]
      ++ pictureElems images (offerIdOf p) p
      ++ descElems p
      ++ [Xml.elem "warehouse"
            [("name", "Главный склад Prompower и Unimat"), ("unit", "шт")]
            (some (toString q)) []]
      ++ weightElems p
      ++ dimsElems p := rfl

theorem tagTexts_preorder_mkOffer (images : List (String × String))
    (p : Record) (q : Int) :
    tagTexts "preorder" (childrenOf (mkOffer images p q)) = [some "1"] := by
  rw [childrenOf_mkOffer]
  have hpic : tagTexts "preorder" (pictureElems images (offerIdOf p) p) = [] :=
    tagTexts_nil_of (fun x hx => by rw [tagOf_mem_pictureElems hx]; decide)
  have hdesc : tagTexts "preorder" (descElems p) = [] :=
    tagTexts_nil_of (fun x hx => by rw [tagOf_mem_descElems hx]; decide)
  have hw : tagTexts "preorder" (weightElems p) = [] :=
    tagTexts_nil_of (fun x hx => by rw [tagOf_mem_weightElems hx]; decide)
  have hd : tagTexts "preorder" (dimsElems p) = [] :=
    tagTexts_nil_of (fun x hx => by rw [tagOf_mem_dimsElems hx]; decide)
  rw [tagTexts_append, tagTexts_append, tagTexts_append, tagTexts_append,
    tagTexts_append, hpic, hdesc, hw, hd]
  simp [tagTexts, te, tagOf, textOf]

theorem paramTexts_all_of {nm : String} {cs : List Xml}
    (h : ∀ x ∈ cs, tagOf x = "param" ∧ lookupStr (attrsOf x) "name" = some nm) :
    paramTexts nm cs = cs.map textOf := by
  unfold paramTexts
  rw [List.filter_eq_self.mpr]
  intro a ha
  simp [(h a ha).1, (h a ha).2]

theorem tagTexts_picture_mkOffer (images : List (String × String))
    (p : Record) (q : Int) :
    tagTexts "picture" (childrenOf (mkOffer images p q)) =
      (pictureElems images (offerIdOf p) p).map textOf := by
  rw [childrenOf_mkOffer]
  have hpic : tagTexts "picture" (pictureElems images (offerIdOf p) p) =
      (pictureElems images (offerIdOf p) p).map textOf :=
    tagTexts_all_of (fun x hx => tagOf_mem_pictureElems hx)
  have hdesc : tagTexts "picture" (descElems p) = [] :=
    tagTexts_nil_of (fun x hx => by rw [tagOf_mem_descElems hx]; decide)
  have hw : tagTexts "picture" (weightElems p) = [] :=
    tagTexts_nil_of (fun x hx => by rw [tagOf_mem_weightElems hx]; decide)
  have hd : tagTexts "picture" (dimsElems p) = [] :=
    tagTexts_nil_of (fun x hx => by rw [tagOf_mem_dimsElems hx]; decide)
  rw [tagTexts_append, tagTexts_append, tagTexts_append, tagTexts_append,
    tagTexts_append, hpic, hdesc, hw, hd]
  simp [tagTexts, te, tagOf, textOf]

theorem nameAttr_mem_dimsElems {p : Record} {x : Xml}
    (hx : x ∈ dimsElems p) : lookupStr (attrsOf x) "name" = some "Габариты" := by
  unfold dimsElems at hx
  split at hx
  · split at hx
    · simp at hx
      subst hx
      rfl
    · simp at hx
  · simp at hx

theorem paramTexts_dims_mkOffer (images : List (String × String))
    (p : Record) (q : Int) :
    paramTexts "Габариты" (childrenOf (mkOffer images p q)) =
      (dimsElems p).map textOf := by
  rw [childrenOf_mkOffer]
  have hpic : paramTexts "Габариты" (pictureElems images (offerIdOf p) p) = [] :=
    paramTexts_nil_of (fun x hx =>
      Or.inl (by rw [tagOf_mem_pictureElems hx]; decide))
  have hdesc : paramTexts "Габариты" (descElems p) = [] :=
    paramTexts_nil_of (fun x hx =>
      Or.inl (by rw [tagOf_mem_descElems hx]; decide))
  have hw : paramTexts "Габариты" (weightElems p) = [] :=
    paramTexts_nil_of (fun x hx =>
      Or.inr (by rw [nameAttr_mem_weightElems hx]; decide))
  have hd : paramTexts "Габариты" (dimsElems p) = (dimsElems p).map textOf :=
    paramTexts_all_of (fun x hx => ⟨tagOf_mem_dimsElems hx, nameAttr_mem_dimsElems hx⟩)
  rw [paramTexts_append, paramTexts_append, paramTexts_append, paramTexts_append,
    paramTexts_append, hpic, hdesc, hw, hd]
  simp [paramTexts, te, tagOf, textOf, attrsOf, lookupStr]

theorem processProduct_ok_some {images : List (String × String)} {p : Record}
    {x : Xml} (h : processProduct images p = Except.ok (some x)) :
    ∃ q, pyInt (rgetD p "instock" (Val.int 0)) = Except.ok q ∧
      x = mkOffer images p q := by
  unfold processProduct at h
  split at h
  · split at h
    · simp at h
    · split at h
      · rename_i q hq
        refine ⟨q, hq, ?_⟩
        simpa using h.symm
      · simp at h
  · simp at h

/-- C1 (counterexample): for the product with article "B2", instock "5"
and price 100, the parsed stock quantity is 5 (not less than one), yet the
emitted offer's preorder flag is the string "1", not the "0" the claim
demands: line 192 sets preorder to "1" unconditionally. -/
theorem C1_counterexample :
    offerView []
        [("article", Val.str "B2"), ("instock", Val.str "5"), ("price", Val.int 100)]
        "preorder" = Except.ok (some [some "1"]) ∧
    pyInt (rgetD
        [("article", Val.str "B2"), ("instock", Val.str "5"), ("price", Val.int 100)]
        "instock" (Val.int 0)) = Except.ok 5 ∧
    ¬ ((5 : Int) < 1) ∧
    (some "1" : Option String) ≠ some "0" := by
  refine ⟨rfl, rfl, by decide, by decide⟩

/-- C1 (amended): for every product record that yields an emitted offer,
the preorder flag is the string "1", unconditionally — it does not depend
on the stock quantity. -/
theorem C1_theorem (images : List (String × String)) (p : Record) (x : Xml)
    (h : processProduct images p = Except.ok (some x)) :
    tagTexts "preorder" (childrenOf x) = [some "1"] := by
  obtain ⟨q, _, rfl⟩ := processProduct_ok_some h
  exact tagTexts_preorder_mkOffer images p q

/-- C1 (witness): the amended preorder property at the concrete product
with article "B2", instock "0" and price 100. -/
theorem C1_witness :
    tagTexts "preorder" (childrenOf (mkOffer []
      [("article", Val.str "B2"), ("instock", Val.str "0"), ("price", Val.int 100)]
      0)) = [some "1"] :=
  C1_theorem []
    [("article", Val.str "B2"), ("instock", Val.str "0"), ("price", Val.int 100)]
    _ rfl

/-- C2 (counterexample): a record whose instock value is the non-numeric
string "many" (article and price valid) makes the whole generation abort
with an uncaught exception — line 229 has no try/except, so the record is
not dropped and the run does not continue. -/
theorem C2_counterexample :
    generate_xml_feed
      [[("article", Val.str "A1"), ("price", Val.int 100), ("instock", Val.str "many")]]
      (CatData.lst []) [] "2026-01-01 00:00" = Except.error () := rfl

/-- C2 (amended): for a product record that reaches the mapping step, the
warehouse stock count defaults to zero only when the instock field is
missing; when the field is present but fails integer conversion, the
error branch is an uncaught exception that aborts the whole run. -/
theorem C2_theorem (images : List (String × String)) (p : Record)
    (h1 : truthyOpt (rget p "article") = true) (h2 : ¬ priceValue p ≤ 0) :
    (rget p "instock" = none →
      processProduct images p = Except.ok (some (mkOffer images p 0))) ∧
    (pyInt (rgetD p "instock" (Val.int 0)) = Except.error () →
      processProduct images p = Except.error ()) := by
  constructor
  · intro h3
    have hq : rgetD p "instock" (Val.int 0) = Val.int 0 := by simp [rgetD, h3]
    simp [processProduct, h1, h2, hq, pyInt]
  · intro h3
    simp [processProduct, h1, h2, h3]

/-- C2 (witness): the default-zero branch at a concrete record with no
instock field. -/
theorem C2_witness :
    processProduct [] [("article", Val.str "B2"), ("price", Val.int 100)] =
      Except.ok (some (mkOffer [] [("article", Val.str "B2"), ("price", Val.int 100)] 0)) :=
  (C2_theorem [] [("article", Val.str "B2"), ("price", Val.int 100)]
    rfl (by decide)).1 rfl

/-- C3 (counterexample): a category list whose only category has a title
but no id is not excluded: `str(category.get("id"))` turns the missing id
into the truthy string "None", so the category is emitted with
`id="None"`. -/
theorem C3_counterexample :
    (catElems [[("title", Val.str "X")]]).map
        (fun c => (tagOf c, attrsOf c, textOf c)) =
      [("category", [("id", "None")], some "X")] ∧
    catElems [[("title", Val.str "X")]] ≠ [] := by
  refine ⟨rfl, ?_⟩
  intro h
  have h1 : (catElems [[("title", Val.str "X")]]).length = 1 := rfl
  rw [h] at h1
  simp at h1

/-- C3 (amended): the output category list equals, in source order and
with one entry each, the categories whose title is present and truthy and
whose id stringifies to a nonempty string — where a missing id stringifies
to "None" and is therefore included, and only a missing/falsy title or an
id stringifying to the empty string excludes a category. -/
theorem C3_theorem (cs : List Record) :
    catElems cs =
      (cs.filter (fun c =>
        (pyStr ((rget c "id").getD Val.null) != "") && truthyOpt (rget c "title"))).map
        (fun c => Xml.elem "category"
          [("id", pyStr ((rget c "id").getD Val.null))]
          (some (pyStr ((rget c "title").getD Val.null))) []) := by
  induction cs with
  | nil => rfl
  | cons c cs ih =>
      have hstep : catElems (c :: cs) =
          (match rget c "title" with
           | some tv =>
               if pyStr ((rget c "id").getD Val.null) ≠ "" ∧ truthy tv then
                 [Xml.elem "category" [("id", pyStr ((rget c "id").getD Val.null))]
                   (some (pyStr tv)) []]
               else []
           | none => []) ++ catElems cs := by
        unfold catElems
        rw [List.filterMap_cons]
        cases ht : rget c "title" with
        | none => simp [ht]
        | some tv =>
            by_cases hcond : pyStr ((rget c "id").getD Val.null) ≠ "" ∧ truthy tv = true
            · simp [ht, hcond]
            · simp [ht, hcond]
      rw [hstep, List.filter_cons, ih]
      cases ht : rget c "title" with
      | none => simp [ht, truthyOpt]
      | some tv =>
          by_cases htr : truthy tv
          · by_cases hid : pyStr ((rget c "id").getD Val.null) = ""
            · simp [ht, htr, hid, truthyOpt]
            · simp [ht, htr, hid, truthyOpt]
          · simp [ht, htr, truthyOpt]

/-- C4: for a product record whose article passed the check, the record is
skipped (yields no offer, with no error) exactly when its price value
fails to parse as a number or parses to a value at most zero; records
whose price parses to a positive value are never excluded by the price
filter. -/
theorem C4_theorem (images : List (String × String)) (p : Record)
    (h : truthyOpt (rget p "article") = true) :
    processProduct images p = Except.ok none ↔
      (∀ q, pyFloat (rgetD p "price" (Val.int 0)) = Except.ok q → q ≤ 0) := by
  have hpv : priceValue p ≤ 0 ↔
      (∀ q, pyFloat (rgetD p "price" (Val.int 0)) = Except.ok q → q ≤ 0) := by
    unfold priceValue
    cases hf : pyFloat (rgetD p "price" (Val.int 0)) with
    | ok q => simp [hf]
    | error e => simp [hf]
  rw [← hpv]
  unfold processProduct
  by_cases hle : priceValue p ≤ 0
  · simp [h, hle]
  · simp [h, hle]
    cases hq : pyInt (rgetD p "instock" (Val.int 0)) <;> simp [hq]

/-- C4 (witness): the price-filter skip at a concrete record whose price
field is null (unparsable). -/
theorem C4_witness :
    processProduct [] [("article", Val.str "A"), ("price", Val.null)] =
      Except.ok none :=
  (C4_theorem [] [("article", Val.str "A"), ("price", Val.null)] rfl).mpr
    (fun _ hq => Except.noConfusion hq)

/-- C5: a product record whose article field is absent is skipped — it
yields no offer and no error. -/
theorem C5_theorem (images : List (String × String)) (p : Record)
    (h : rget p "article" = none) :
    processProduct images p = Except.ok none := by
  simp [processProduct, truthyOpt, h]

/-- C5 (witness): the article-missing skip at a concrete record with only
a price field. -/
theorem C5_witness : processProduct [] [("price", Val.int 5)] = Except.ok none :=
  C5_theorem [] [("price", Val.int 5)] rfl

theorem apiPictureTexts (p : Record) :
    (apiPictureElems p).map textOf =
      (match (match rget p "picture" with
              | some v => some v
              | none => rget p "image") with
       | some v => if truthy v then [some (pyStr v)] else []
       | none => []) := by
  unfold apiPictureElems
  cases hapi : (match rget p "picture" with
               | some v => some v
               | none => rget p "image") with
  | none => rfl
  | some v =>
      by_cases htr : truthy v = true
      · simp [htr, textOf]
      · simp [htr]

/-- C6 (counterexample): with the image map binding key "A1" to the empty
string, the key exists in the map, yet the emitted picture is the record's
own picture field, not the mapped value: line 213 tests the mapped value
for truthiness, so an empty mapped value falls through to the API
fallback. -/
theorem C6_counterexample :
    offerView [("A1", "")]
        [("article", Val.str "A1"), ("picture", Val.str "http://x/old.jpg"),
         ("price", Val.int 100), ("instock", Val.int 0)] "picture" =
      Except.ok (some [some "http://x/old.jpg"]) ∧
    lookupStr [("A1", "")] "A1" = some "" ∧
    ("http://x/old.jpg" : String) ≠ "" := by
  refine ⟨rfl, rfl, by decide⟩

/-- C6 (amended): for every emitted offer, when the offer's key maps to a
nonempty value in the secondary image map the output picture equals that
mapped value even if the record carries its own picture or image field;
when the key is absent or maps to an empty value, the picture falls back
to the record's picture field (else its image field), emitted only when
that value is truthy, and is omitted entirely otherwise. -/
theorem C6_theorem (images : List (String × String)) (p : Record) (x : Xml)
    (h : processProduct images p = Except.ok (some x)) :
    (∀ ext, lookupStr images (offerIdOf p) = some ext → ext ≠ "" →
      tagTexts "picture" (childrenOf x) = [some ext]) ∧
    ((lookupStr images (offerIdOf p) = none ∨
        lookupStr images (offerIdOf p) = some "") →
      tagTexts "picture" (childrenOf x) =
        (match (match rget p "picture" with
                | some v => some v
                | none => rget p "image") with
         | some v => if truthy v then [some (pyStr v)] else []
         | none => [])) := by
  obtain ⟨q, _, rfl⟩ := processProduct_ok_some h
  rw [tagTexts_picture_mkOffer]
  constructor
  · intro ext hext hne
    unfold pictureElems
    rw [hext]
    simp [hne, textOf]
  · intro hcase
    unfold pictureElems
    rcases hcase with hc | hc <;> rw [hc]
    · exact apiPictureTexts p
    · simpa using apiPictureTexts p

/-- C6 (witness): the map-priority branch at a concrete record that
carries its own picture while the map binds its key to a nonempty URL. -/
theorem C6_witness :
    tagTexts "picture" (childrenOf (mkOffer [("A1", "http://x/a.jpg")]
      [("article", Val.str "A1"), ("picture", Val.str "http://x/old.jpg"),
       ("price", Val.int 100), ("instock", Val.int 0)] 0)) =
      [some "http://x/a.jpg"] :=
  (C6_theorem [("A1", "http://x/a.jpg")]
    [("article", Val.str "A1"), ("picture", Val.str "http://x/old.jpg"),
     ("price", Val.int 100), ("instock", Val.int 0)] _ rfl).1
    "http://x/a.jpg" rfl (by decide)

/-- C7: for every emitted offer, the dimensions param (name "Габариты")
is present exactly when height, width and depth are all present and
truthy, and then its text is the three raw values joined with "x", with
no unit conversion. -/
theorem C7_theorem (images : List (String × String)) (p : Record) (x : Xml)
    (h : processProduct images p = Except.ok (some x)) :
    paramTexts "Габариты" (childrenOf x) =
      (if truthyOpt (rget p "height") && truthyOpt (rget p "width") &&
          truthyOpt (rget p "depth") then
        [some (pyStr ((rget p "height").getD Val.null) ++ "x" ++
               pyStr ((rget p "width").getD Val.null) ++ "x" ++
               pyStr ((rget p "depth").getD Val.null))]
      else []) := by
  obtain ⟨q, _, rfl⟩ := processProduct_ok_some h
  rw [paramTexts_dims_mkOffer]
  unfold dimsElems
  cases hh : rget p "height" with
  | none => simp [hh, truthyOpt]
  | some hv =>
      cases hw2 : rget p "width" with
      | none => simp [hh, hw2, truthyOpt]
      | some wv =>
          cases hd2 : rget p "depth" with
          | none => simp [hh, hw2, hd2, truthyOpt]
          | some dv =>
              by_cases hc : (truthy hv && truthy wv && truthy dv) = true
              · simp [hh, hw2, hd2, truthyOpt, hc, textOf, paramElem]
              · simp [hh, hw2, hd2, truthyOpt, hc]

/-- C7 (witness): the dimensions param at the concrete product with
height 10, width 20 and depth 30. -/
theorem C7_witness :
    paramTexts "Габариты" (childrenOf (mkOffer []
      [("article", Val.str "D"), ("price", Val.int 5), ("instock", Val.int 1),
       ("height", Val.int 10), ("width", Val.int 20), ("depth", Val.int 30)] 1)) =
      [some "10x20x30"] :=
  C7_theorem []
    [("article", Val.str "D"), ("price", Val.int 5), ("instock", Val.int 1),
     ("height", Val.int 10), ("width", Val.int 20), ("depth", Val.int 30)] _ rfl

theorem render_yml (t : String) (shop : Xml) :
    render (Xml.elem "yml_catalog" [("date", t)] none [shop]) =
      "<yml_catalog date=\"" ++ escAttr t ++
        ("\">" ++ render shop ++ "</yml_catalog>") := by
  rw [render, renderChildren, renderChildren, renderAttrs, renderAttrs]
  simp [String.append_assoc, String.append_empty, String.empty_append]
  rw [← String.append_assoc]
  rfl

/-- C8: the generation pipeline is deterministic up to the timestamp: for
one and the same upstream data (products, categories, image map), the
bytes written for two timestamps agree everywhere except the date
attribute value of the root yml_catalog element. -/
theorem C8_theorem (products : List Record) (cats : CatData)
    (images : List (String × String)) (t1 t2 o1 o2 : String)
    (h1 : feedOutput products cats images t1 = Except.ok o1)
    (h2 : feedOutput products cats images t2 = Except.ok o2) :
    ∃ pre suf : String, pre = "<yml_catalog date=\"" ∧
      o1 = pre ++ escAttr t1 ++ suf ∧ o2 = pre ++ escAttr t2 ++ suf := by
  cases hb : buildShop products cats images with
  | error e => simp [feedOutput, generate_xml_feed, Except.map, hb] at h1
  | ok shop =>
      have e1 : o1 = render (Xml.elem "yml_catalog" [("date", t1)] none [shop]) := by
        simp [feedOutput, generate_xml_feed, Except.map, hb] at h1
        exact h1.symm
      have e2 : o2 = render (Xml.elem "yml_catalog" [("date", t2)] none [shop]) := by
        simp [feedOutput, generate_xml_feed, Except.map, hb] at h2
        exact h2.symm
      refine ⟨"<yml_catalog date=\"", "\">" ++ render shop ++ "</yml_catalog>",
        rfl, ?_, ?_⟩
      · rw [e1, render_yml]
      · rw [e2, render_yml]

/-- C8 (witness): the determinism property at a concrete pair of runs over
the same (empty) upstream data with timestamps "A" and "B". -/
theorem C8_witness :
    ∃ o1 o2 : String,
      feedOutput [] (CatData.lst []) [] "A" = Except.ok o1 ∧
      feedOutput [] (CatData.lst []) [] "B" = Except.ok o2 ∧
      ∃ pre suf : String, pre = "<yml_catalog date=\"" ∧
        o1 = pre ++ escAttr "A" ++ suf ∧ o2 = pre ++ escAttr "B" ++ suf :=
  ⟨_, _, rfl, rfl, C8_theorem [] (CatData.lst []) [] "A" "B" _ _ rfl rfl⟩

/-- C9 (counterexample): with a nonempty category list and a nonempty
aggregated product list whose single product has an invalid instock value,
the run terminates on an uncaught exception — a termination behavior the
claim's "exit 1 exactly on no-categories/zero-products, else exit 0" does
not allow. -/
theorem C9_counterexample :
    runMain (some [[("id", Val.int 1), ("title", Val.str "c")]])
        [[("article", Val.str "A1"), ("price", Val.int 100), ("instock", Val.str "many")]]
        [] "T" = Outcome.exception ∧
    (some [[("id", Val.int 1), ("title", Val.str "c")]] : Option (List Record)) ≠ none ∧
    ([[("id", Val.int 1), ("title", Val.str "c")]] : List Record) ≠ [] ∧
    ([[("article", Val.str "A1"), ("price", Val.int 100), ("instock", Val.str "many")]] :
      List Record) ≠ [] ∧
    Outcome.exception ≠ Outcome.code 1 ∧ Outcome.exception ≠ Outcome.code 0 := by
  exact ⟨rfl, by decide, by decide, by decide, by decide, by decide⟩

/-- C9 (amended): the process exits with code 1 exactly when the category
fetch result is falsy (failure or empty) or the aggregated product list is
empty; it exits with code 0 exactly when, past those checks, feed
generation succeeds; and when feed generation raises (e.g. an invalid
stock value) the process instead terminates on an uncaught exception. -/
theorem C9_theorem (cats : Option (List Record)) (products : List Record)
    (images : List (String × String)) (t : String) :
    (runMain cats products images t = Outcome.code 1 ↔
      (cats = none ∨ cats = some [] ∨ products = [])) ∧
    (runMain cats products images t = Outcome.code 0 ↔
      (∃ cs, cats = some cs ∧ cs ≠ [] ∧ products ≠ [] ∧
        ∃ x, generate_xml_feed products (CatData.lst cs) images t = Except.ok x)) ∧
    (runMain cats products images t = Outcome.exception ↔
      (∃ cs, cats = some cs ∧ cs ≠ [] ∧ products ≠ [] ∧
        generate_xml_feed products (CatData.lst cs) images t = Except.error ())) := by
  cases cats with
  | none => simp [runMain]
  | some cs =>
      by_cases hcs : cs = []
      · subst hcs
        simp [runMain]
      · by_cases hp : products = []
        · subst hp
          simp [runMain, hcs, List.isEmpty_iff]
        · cases hg : generate_xml_feed products (.lst cs) images t with
          | ok x => simp [runMain, hcs, hp, hg, List.isEmpty_iff]
          | error e =>
              cases e
              simp [runMain, hcs, hp, hg, List.isEmpty_iff]

/-- C10: a product record whose article field is present but falsy (empty
string, zero, or null) is skipped exactly like a record with no article:
it yields no offer and no error. -/
theorem C10_theorem (images : List (String × String)) (p : Record) (v : Val)
    (h1 : rget p "article" = some v) (h2 : truthy v = false) :
    processProduct images p = Except.ok none := by
  simp [processProduct, truthyOpt, h1, h2]

/-- C10 (witness): the falsy-article skip at a concrete record whose
article is the empty string. -/
theorem C10_witness :
    processProduct [] [("article", Val.str ""), ("price", Val.int 5)] =
      Except.ok none :=
  C10_theorem [] [("article", Val.str ""), ("price", Val.int 5)] (Val.str "")
    rfl rfl

end PrompowerFeed
